import Mathlib

/-!
# Verification of the storm-control remote-hardware bridge

Shallow embedding of `storm_control/sc_hardware/baseClasses/remoteHardware.py`:
the wire-message codec (`sanitizeData`, `RemoteHALMessage`), the local bridge
(`RemoteHardwareModule.processMessage` / `remoteMessage` /
`handleCheckMessageTimer`), the remote server (`RemoteHardwareServer.
handleCheckMessageTimer`) and the remote server module
(`RemoteHardwareServerModule.newMessage` / `holdMessage` /
`releaseMessageHold`).

Python objects are modelled as inductive values; mutation is modelled by
explicit state passing; a raised exception is modelled by `Except` or by an
explicit flag in the result record when the exception aborts a function that
already performed side effects.
-/

namespace RemoteHardware

/-- A Python value as it can appear in a HAL message `data` dictionary.
`qobject` stands for any instance of `QtCore.QObject`; `other` stands for
any remaining value that is neither a primitive, a `dict`, a sequence nor a
`QObject` (e.g. a socket, a function, an arbitrary object). -/
inductive PyVal where
  | str (s : String)
  | int (n : Int)
  | bool (b : Bool)
  | pynone
  | dict (entries : List (String × PyVal))
  | seq (elems : List PyVal)
  | qobject (id : Nat)
  | other (id : Nat)

/-- `isinstance(val, QtCore.QObject)`. -/
def PyVal.isQObject : PyVal → Bool
  | .qobject _ => true
  | _ => false

/-- `isinstance(val, dict)`. -/
def PyVal.isDict : PyVal → Bool
  | .dict _ => true
  | _ => false

/-- `sanitizeData(new_data, old_data)` from remoteHardware.py, lines 27-38.
`new_data` starts empty and is filled from `old_data`: a `dict` value is
recursed into, any other value is copied unless it is a `QtCore.QObject`
instance.  We return the final contents of `new_data`; Python dict
iteration/insertion order makes an ordered association list a faithful
model. -/
def sanitizeData : List (String × PyVal) → List (String × PyVal)
  | [] => []
  | (key, val) :: rest =>
    match val with
    | .dict d => (key, .dict (sanitizeData d)) :: sanitizeData rest
    | v => if v.isQObject then sanitizeData rest else (key, v) :: sanitizeData rest

mutual

/-- Does a value contain, at any depth (inside dicts and sequences), a leaf
that is neither a primitive, a mapping nor a sequence?  This is the spec's
notion of an unsanitizable leaf. -/
def PyVal.hasBadLeaf : PyVal → Bool
  | .dict entries => hasBadLeafEntries entries
  | .seq elems => hasBadLeafElems elems
  | .qobject _ => true
  | .other _ => true
  | _ => false

/-- `hasBadLeaf` over the entries of a dict. -/
def hasBadLeafEntries : List (String × PyVal) → Bool
  | [] => false
  | (_, v) :: rest => v.hasBadLeaf || hasBadLeafEntries rest

/-- `hasBadLeaf` over the elements of a sequence. -/
def hasBadLeafElems : List PyVal → Bool
  | [] => false
  | v :: rest => v.hasBadLeaf || hasBadLeafElems rest

end

/-- Does a data tree contain, among its dict entries followed recursively
through nested dicts only (the positions `sanitizeData` actually inspects),
a value that is a `QObject` instance? -/
def hasDroppable : List (String × PyVal) → Bool
  | [] => false
  | (_, val) :: rest =>
    match val with
    | .dict d => hasDroppable d || hasDroppable rest
    | v => v.isQObject || hasDroppable rest

/-- A `HalMessageResponse`: `source` plus an opaque data payload. -/
structure ResponseEntry where
  source : String
  rdata : PyVal

/-- A `HalMessageError`: `source`, `message` and `stack_trace` (the
`m_exception` object itself is opaque and omitted from observation). -/
structure ErrorEntry where
  source : String
  message : String
  stack_trace : String

/-- The host-side `HalMessage` (the external message-bus object), reduced to
the fields the bridge touches: identity, type, data, source module name,
the reference count (`incRefCount`/`decRefCount`) and the accumulated
responses and errors (`addResponse`/`addError`). -/
structure HalMessage where
  m_id : Nat
  m_type : String
  hdata : Option (List (String × PyVal))
  source_module_name : String
  refCount : Nat
  responses : List ResponseEntry
  errors : List ErrorEntry

/-- The wire message `RemoteHALMessage` (remoteHardware.py, lines 411-451). -/
structure RemoteHALMessage where
  m_id : Nat
  m_type : String
  wdata : List (String × PyVal)
  responses : List ResponseEntry
  m_errors : List ErrorEntry
  source_name : String

/-- `RemoteHALMessage.__init__(hal_message)` (lines 417-427): fresh empty
`data` filled by `sanitizeData` when `hal_message.data` is not `None`,
empty error/response lists, and copied id, type and source module name. -/
def RemoteHALMessage.fromHal (hal_message : HalMessage) : RemoteHALMessage :=
  { m_id := hal_message.m_id
    m_type := hal_message.m_type
    wdata := match hal_message.hdata with
      | none => []
      | some d => sanitizeData d
    responses := []
    m_errors := []
    source_name := hal_message.source_module_name }

/-- `RemoteHALMessage.addError`. -/
def RemoteHALMessage.addError (r : RemoteHALMessage) (e : ErrorEntry) : RemoteHALMessage :=
  { r with m_errors := r.m_errors ++ [e] }

/-- `RemoteHALMessage.getResponses`. -/
def RemoteHALMessage.getResponses (r : RemoteHALMessage) : List ResponseEntry :=
  r.responses

/-- `RemoteHALMessage.getErrors`. -/
def RemoteHALMessage.getErrors (r : RemoteHALMessage) : List ErrorEntry :=
  r.m_errors

/-- `HalMessage.addResponse`. -/
def HalMessage.addResponse (m : HalMessage) (e : ResponseEntry) : HalMessage :=
  { m with responses := m.responses ++ [e] }

/-- `HalMessage.addError`. -/
def HalMessage.addError (m : HalMessage) (e : ErrorEntry) : HalMessage :=
  { m with errors := m.errors ++ [e] }

/-- `HalMessage.incRefCount`. -/
def HalMessage.incRefCount (m : HalMessage) : HalMessage :=
  { m with refCount := m.refCount + 1 }

/-- `HalMessage.decRefCount`. -/
def HalMessage.decRefCount (m : HalMessage) : HalMessage :=
  { m with refCount := m.refCount - 1 }

/-- `RemoteHardwareModule.copyResponses(r_message, hal_message)` (lines
145-157): copy responses and errors from the remote message into the HAL
message, rewriting each entry's `source` to the local module's name. -/
def copyResponses (module_name : String) (r_message : RemoteHALMessage)
    (hal_message : HalMessage) : HalMessage :=
  let withResponses := r_message.getResponses.foldl
    (fun m elt => m.addResponse { elt with source := module_name }) hal_message
  r_message.getErrors.foldl
    (fun m elt => m.addError { elt with source := module_name }) withResponses

/-- The mutable state of the local bridge `RemoteHardwareModule` that the
claims concern: the pending HAL message slot (`self.hal_message`) and the
worker flag (`self.worker`, `None` or `True` in the Python code). -/
structure LocalBridge where
  module_name : String
  hal_message : Option HalMessage
  worker : Option Bool

/-- The synchronous reply received on `socket_remote` inside
`processMessage`: either a `RemoteHALMessage` instance or anything else
(`"wait"` or any other non-wire object), discriminated only by
`isinstance`. -/
inductive SyncReply where
  | wire (r : RemoteHALMessage)
  | nonWire (tag : String)

/-- The outcome of one `RemoteHardwareModule.processMessage` call: the wire
messages sent on `socket_remote`, the bridge state and the (possibly
mutated) host message when control leaves the function, and whether the
function terminated by the `assert (self.worker is None)` failing
(an `AssertionError` escaping after the side effects already done). -/
structure SubmitOutcome where
  sent : List RemoteHALMessage
  bridge : LocalBridge
  message : HalMessage
  assertFailed : Bool

/-- `RemoteHardwareModule.processMessage(message)` (lines 184-220).
The remote's synchronous reply is an input (`resp` on line 206): the Python
function blocks on `recv` for it.  On a `RemoteHALMessage` reply the
responses are copied and nothing else happens; on any other reply the
message's reference count is incremented, the message is stored in
`self.hal_message`, and then `assert (self.worker is None)` runs —
failing (after the send, the increment and the store) when a worker is
already active, and otherwise setting `self.worker = True`. -/
def processMessage (b : LocalBridge) (message : HalMessage) (resp : SyncReply) :
    SubmitOutcome :=
  let r_message := RemoteHALMessage.fromHal message
  match resp with
  | .wire resp =>
    { sent := [r_message]
      bridge := b
      message := copyResponses b.module_name resp message
      assertFailed := false }
  | .nonWire _ =>
    let message := message.incRefCount
    let b := { b with hal_message := some message }
    if b.worker.isSome then
      { sent := [r_message], bridge := b, message := message, assertFailed := true }
    else
      { sent := [r_message]
        bridge := { b with worker := some true }
        message := message
        assertFailed := false }

/-- A message arriving on the local bridge's notify socket (`socket_hal`):
a `RemoteHALMessage`, a `["name", payload]` list (payload modelled by its
`m_type` and `data` fields, the only ones read), or anything else. -/
inductive NotifyMsg where
  | wire (r : RemoteHALMessage)
  | listMsg (name : String) (m_type : String) (ldata : Option (List (String × PyVal)))
  | otherMsg (tag : String)

/-- The outcome of one successful `RemoteHardwareModule.remoteMessage` call:
the new bridge state, the completed pending host message if this call
resolved one, and any `(m_type, data)` pairs re-sent into the host message
bus via `self.sendMessage`. -/
structure RemoteMsgOutcome where
  bridge : LocalBridge
  resolved : Option HalMessage
  sentToHal : List (String × Option (List (String × PyVal)))

/-- `RemoteHardwareModule.remoteMessage(r_message)` (lines 222-248).
A `RemoteHALMessage` is treated as the delayed reply: its responses and
errors are copied into `self.hal_message`, whose reference count is then
decremented, and the pending slot and worker flag are cleared.  When
`self.hal_message` is `None` this raises (`None` has no `addResponse` /
`decRefCount` attribute), modelled by `Except.error`.  A list whose head is
`'sendMessage'` re-emits a new HAL message; every other message is
ignored. -/
def remoteMessage (b : LocalBridge) (r_message : NotifyMsg) :
    Except String RemoteMsgOutcome :=
  match r_message with
  | .wire r =>
    match b.hal_message with
    | none => .error "AttributeError: NoneType"
    | some hal_message =>
      let hal_message := copyResponses b.module_name r hal_message
      let hal_message := hal_message.decRefCount
      .ok { bridge := { b with hal_message := none, worker := none }
            resolved := some hal_message
            sentToHal := [] }
  | .listMsg name m_type ldata =>
    if name = "sendMessage" then
      .ok { bridge := b, resolved := none, sentToHal := [(m_type, ldata)] }
    else
      .ok { bridge := b, resolved := none, sentToHal := [] }
  | .otherMsg _ =>
    .ok { bridge := b, resolved := none, sentToHal := [] }

/-- A value travelling through the server's two Qt signals: the held wire
message, a plain string (`"wait"`, `"ack"`, status strings), or Python
`None` (what `releaseMessageHold` emits when no message is held). -/
inductive WirePayload where
  | wireMsg (r : RemoteHALMessage)
  | strMsg (s : String)
  | pyNone

/-- One emission by the server module: `sendResponse.emit(x)` goes to
`socket_remote`, the synchronous-reply path (`RemoteHardwareServer.
handleSendResponse`); `sendMessage.emit(x)` goes to `socket_hal`, the
notify path (`RemoteHardwareServer.handleSendMessage`). -/
inductive ServerEmission where
  | response (payload : WirePayload)
  | message (payload : WirePayload)

/-- The state of `RemoteHardwareServerModule` used by the claims: the held
wire message slot `self.r_message`. -/
structure ServerModule where
  r_message : Option RemoteHALMessage

/-- `RemoteHardwareServerModule.holdMessage(r_message)` (lines 363-371):
`assert (self.r_message is None)`, store the message, emit `"wait"` on the
synchronous-reply signal.  `none` models the `AssertionError` raised on a
double hold (before any store or emission). -/
def holdMessage (s : ServerModule) (r_message : RemoteHALMessage) :
    Option (ServerModule × List ServerEmission) :=
  if s.r_message.isSome then none
  else some ({ r_message := some r_message },
             [.response (.strMsg "wait")])

/-- `RemoteHardwareServerModule.releaseMessageHold()` (lines 402-408):
emit `self.r_message` on the `sendMessage` (notify-path) signal and clear
the slot.  There is no check that a message is actually held: with an
empty slot this emits Python `None` and completes normally. -/
def releaseMessageHold (s : ServerModule) : ServerModule × List ServerEmission :=
  ({ r_message := none },
   [.message (match s.r_message with
              | some r => .wireMsg r
              | none => .pyNone)])

/-- What a handler (`processMessage` / `processMessageOther` override) does
when dispatched a message: return normally having emitted some signals, or
raise an exception carrying a message and a stack trace. -/
inductive HandlerAct where
  | finished (emissions : List ServerEmission)
  | raises (excMessage : String) (stackTrace : String)

/-- A message arriving at the server module via `newMessage`: a
`RemoteHALMessage` or anything else (lists, strings), discriminated only by
`isinstance`. -/
inductive ServerInbound where
  | wire (r : RemoteHALMessage)
  | listMsg (name : String)
  | strMsg (s : String)

/-- `RemoteHardwareServerModule.newMessage(r_message)` (lines 373-388).
Dispatches to `processMessage` for `RemoteHALMessage` instances, to
`processMessageOther` otherwise; the handlers are parameters (`actWire`,
`actOther`).  On an exception the handler raised, the `except` block calls
`r_message.addError(...)` and re-emits the message on the reply signal —
which only works when `r_message` is a `RemoteHALMessage`; for a list or a
string the `except` block itself raises `AttributeError` (no `addError`
attribute), modelled by `Except.error`, so the exception escapes
`newMessage`. -/
def newMessage (actWire : RemoteHALMessage → HandlerAct)
    (actOther : ServerInbound → HandlerAct) (r_message : ServerInbound) :
    Except String (List ServerEmission) :=
  match r_message with
  | .wire r =>
    match actWire r with
    | .finished emissions => .ok emissions
    | .raises excMessage stackTrace =>
      let r := r.addError { source := "na", message := excMessage,
                            stack_trace := stackTrace }
      .ok [.response (.wireMsg r)]
  | m =>
    match actOther m with
    | .finished emissions => .ok emissions
    | .raises _ _ => .error "AttributeError: object has no attribute addError"

/-- The receive loop of `RemoteHardwareModule.handleCheckMessageTimer`
(lines 166-182): `while messages:` poll the socket and append every
immediately-available message to `r_messages`, stopping only when the poll
reports nothing readable.  The inbound queue is a list; the loop takes
every element in order and leaves the queue empty. -/
def localReceiveLoop : List NotifyMsg → List NotifyMsg
  | [] => []
  | r_message :: rest => r_message :: localReceiveLoop rest

/-- The processing loop of `RemoteHardwareModule.handleCheckMessageTimer`:
`for r_message in r_messages: self.remoteMessage(r_message)`.  An exception
from `remoteMessage` propagates and aborts the loop. -/
def localProcessLoop (b : LocalBridge) : List NotifyMsg → Except String LocalBridge
  | [] => .ok b
  | r_message :: rest =>
    match remoteMessage b r_message with
    | .ok outcome => localProcessLoop outcome.bridge rest
    | .error e => .error e

/-- One tick of the local bridge's check-message timer: the messages
received (drained) from the socket this tick, what remains queued on the
socket afterwards, and the result of processing them in arrival order. -/
structure LocalTickOutcome where
  received : List NotifyMsg
  remaining : List NotifyMsg
  result : Except String LocalBridge

/-- `RemoteHardwareModule.handleCheckMessageTimer` (lines 166-182) as a
whole: drain all queued messages, then process each in order. -/
def localHandleCheckMessageTimer (b : LocalBridge) (inbound : List NotifyMsg) :
    LocalTickOutcome :=
  let r_messages := localReceiveLoop inbound
  { received := r_messages
    remaining := []
    result := localProcessLoop b r_messages }

/-- One tick of the remote server's check-message timer: the message it
took off the socket (if any), what remains queued afterwards, whether the
close handshake reset the sockets, the emissions produced, and an
exception escaping the tick, if any. -/
structure ServerTickOutcome where
  processed : Option ServerInbound
  remaining : List ServerInbound
  socketsReset : Bool
  emissions : List ServerEmission
  raised : Option String

/-- `RemoteHardwareServer.handleCheckMessageTimer` (lines 319-333): a
single poll; at most one message is received per tick.  `"close event"`
gets the ack/cleanUp/createSockets handshake; every other message goes to
`module.newMessage`. -/
def serverHandleCheckMessageTimer (actWire : RemoteHALMessage → HandlerAct)
    (actOther : ServerInbound → HandlerAct) (inbound : List ServerInbound) :
    ServerTickOutcome :=
  match inbound with
  | [] =>
    { processed := none, remaining := [], socketsReset := false,
      emissions := [], raised := none }
  | r_message :: rest =>
    match r_message with
    | .strMsg "close event" =>
      { processed := some r_message
        remaining := rest
        socketsReset := true
        emissions := [.response (.strMsg "ack")]
        raised := none }
    | m =>
      match newMessage actWire actOther m with
      | .ok emissions =>
        { processed := some m, remaining := rest, socketsReset := false,
          emissions := emissions, raised := none }
      | .error e =>
        { processed := some m, remaining := rest, socketsReset := false,
          emissions := [], raised := some e }

/-! ### Concrete fixtures used by witnesses and counterexamples -/

/-- A local bridge with nothing pending (`hal_message is None`,
`worker is None`). -/
def idleBridge : LocalBridge :=
  { module_name := "remote_mod", hal_message := none, worker := none }

/-- A sample host message. -/
def sampleMsg : HalMessage :=
  { m_id := 7, m_type := "getStatus",
    hdata := some [("mode", PyVal.str "locked")],
    source_module_name := "hal_src", refCount := 5,
    responses := [], errors := [] }

/-- A second host message, submitted while the first is pending. -/
def secondMsg : HalMessage :=
  { m_id := 8, m_type := "longOperation", hdata := none,
    source_module_name := "hal_src", refCount := 2,
    responses := [], errors := [] }

/-- A sample completed wire message coming back from the remote side. -/
def sampleReply : RemoteHALMessage :=
  { m_id := 7, m_type := "getStatus", wdata := [],
    responses := [{ source := "none_remote", rdata := PyVal.str "locked" }],
    m_errors := [{ source := "none_remote", message := "warn", stack_trace := "tb" }],
    source_name := "none_remote" }

/-- A local bridge that already has a pending request (`sampleMsg`) and an
active worker. -/
def busyBridge : LocalBridge :=
  { module_name := "remote_mod", hal_message := some sampleMsg, worker := some true }

/-- Data containing a `QObject` nested inside a sequence and a non-`QObject`
non-serializable leaf. -/
def badData : List (String × PyVal) :=
  [("a", PyVal.seq [PyVal.qobject 0]), ("b", PyVal.other 1)]

/-- Data whose dict-reachable values contain no `QObject` (one hides inside
a sequence, which `sanitizeData` does not open). -/
def safeData : List (String × PyVal) :=
  [("a", PyVal.seq [PyVal.qobject 9]),
   ("b", PyVal.dict [("c", PyVal.str "x")]),
   ("n", PyVal.int 3)]

/-- A handler that echoes the wire message back as the synchronous reply
(the base-class `RemoteHardwareServerModule.processMessage`). -/
def echoWire : RemoteHALMessage → HandlerAct :=
  fun r => .finished [.response (.wireMsg r)]

/-- A handler for non-wire messages that does nothing (the base-class
`RemoteHardwareServerModule.processMessageOther`). -/
def ignoreOther : ServerInbound → HandlerAct :=
  fun _ => .finished []

/-! ### Helper lemmas -/

theorem foldl_addResponse_eq (name : String) (l : List ResponseEntry) (m : HalMessage) :
    l.foldl (fun m elt => m.addResponse { elt with source := name }) m =
      { m with responses := m.responses ++ l.map (fun e => { e with source := name }) } := by
  induction l generalizing m with
  | nil => simp
  | cons x xs ih =>
    rw [List.foldl_cons, ih]
    simp [HalMessage.addResponse]

theorem foldl_addError_eq (name : String) (l : List ErrorEntry) (m : HalMessage) :
    l.foldl (fun m elt => m.addError { elt with source := name }) m =
      { m with errors := m.errors ++ l.map (fun e => { e with source := name }) } := by
  induction l generalizing m with
  | nil => simp
  | cons x xs ih =>
    rw [List.foldl_cons, ih]
    simp [HalMessage.addError]

/-- Full characterisation of `copyResponses`: responses and errors are
appended with the `source` rewritten, every other field of the HAL message
is untouched. -/
theorem copyResponses_eq (name : String) (r : RemoteHALMessage) (m : HalMessage) :
    copyResponses name r m =
      { m with
        responses := m.responses ++ r.responses.map (fun e => { e with source := name }),
        errors := m.errors ++ r.m_errors.map (fun e => { e with source := name }) } := by
  simp [copyResponses, RemoteHALMessage.getResponses, RemoteHALMessage.getErrors,
        foldl_addResponse_eq, foldl_addError_eq]

/-- The receive loop of the local tick takes every queued message, in
order. -/
theorem localReceiveLoop_eq (l : List NotifyMsg) : localReceiveLoop l = l := by
  induction l with
  | nil => rfl
  | cons x xs ih => simp [localReceiveLoop, ih]

/-- The sanitized output contains no `QObject` at any dict-reachable
position. -/
theorem hasDroppable_sanitizeData :
    ∀ d : List (String × PyVal), hasDroppable (sanitizeData d) = false
  | [] => by simp [sanitizeData, hasDroppable]
  | (key, val) :: rest => by
    have ihrest := hasDroppable_sanitizeData rest
    cases val with
    | dict dd =>
      have ihd := hasDroppable_sanitizeData dd
      simp [sanitizeData, hasDroppable, ihd, ihrest]
    | str s => simp [sanitizeData, hasDroppable, PyVal.isQObject, ihrest]
    | int n => simp [sanitizeData, hasDroppable, PyVal.isQObject, ihrest]
    | bool b => simp [sanitizeData, hasDroppable, PyVal.isQObject, ihrest]
    | pynone => simp [sanitizeData, hasDroppable, PyVal.isQObject, ihrest]
    | seq es => simp [sanitizeData, hasDroppable, PyVal.isQObject, ihrest]
    | qobject i => simp [sanitizeData, hasDroppable, PyVal.isQObject, ihrest]
    | other i => simp [sanitizeData, hasDroppable, PyVal.isQObject, ihrest]

/-- On data with no `QObject` at any dict-reachable position,
`sanitizeData` is the identity. -/
theorem sanitizeData_of_not_droppable :
    ∀ d : List (String × PyVal), hasDroppable d = false → sanitizeData d = d
  | [], _ => by simp [sanitizeData]
  | (key, val) :: rest, h => by
    cases val with
    | dict dd =>
      simp only [hasDroppable, Bool.or_eq_false_iff] at h
      simp [sanitizeData, sanitizeData_of_not_droppable dd h.1,
            sanitizeData_of_not_droppable rest h.2]
    | str s =>
      simp only [hasDroppable, PyVal.isQObject, Bool.false_or] at h
      simp [sanitizeData, PyVal.isQObject, sanitizeData_of_not_droppable rest h]
    | int n =>
      simp only [hasDroppable, PyVal.isQObject, Bool.false_or] at h
      simp [sanitizeData, PyVal.isQObject, sanitizeData_of_not_droppable rest h]
    | bool b =>
      simp only [hasDroppable, PyVal.isQObject, Bool.false_or] at h
      simp [sanitizeData, PyVal.isQObject, sanitizeData_of_not_droppable rest h]
    | pynone =>
      simp only [hasDroppable, PyVal.isQObject, Bool.false_or] at h
      simp [sanitizeData, PyVal.isQObject, sanitizeData_of_not_droppable rest h]
    | seq es =>
      simp only [hasDroppable, PyVal.isQObject, Bool.false_or] at h
      simp [sanitizeData, PyVal.isQObject, sanitizeData_of_not_droppable rest h]
    | qobject i =>
      simp [hasDroppable, PyVal.isQObject] at h
    | other i =>
      simp only [hasDroppable, PyVal.isQObject, Bool.false_or] at h
      simp [sanitizeData, PyVal.isQObject, sanitizeData_of_not_droppable rest h]

/-- Every server tick leaves exactly the tail of the inbound queue
queued. -/
theorem serverTick_remaining (actWire : RemoteHALMessage → HandlerAct)
    (actOther : ServerInbound → HandlerAct) (sin : List ServerInbound) :
    (serverHandleCheckMessageTimer actWire actOther sin).remaining = sin.tail := by
  cases sin with
  | nil => rfl
  | cons m rest =>
    simp only [serverHandleCheckMessageTimer]
    split
    · rfl
    · split <;> rfl

/-- Every server tick takes at most the head of the inbound queue. -/
theorem serverTick_processed (actWire : RemoteHALMessage → HandlerAct)
    (actOther : ServerInbound → HandlerAct) (sin : List ServerInbound) :
    (serverHandleCheckMessageTimer actWire actOther sin).processed = sin.head? := by
  cases sin with
  | nil => rfl
  | cons m rest =>
    simp only [serverHandleCheckMessageTimer]
    split
    · rfl
    · split <;> rfl

/-! ### Claim theorems -/

/-- C1: for a host message M whose synchronous reply is not a wire message,
submitting M increments M's reference count by exactly one, records M as the
single pending request and sets the worker flag; when a wire message later
arrives on the notify path, its responses and errors are copied into the
pending M (source rewritten to the local module), M's reference count is
decremented by exactly one (back to its original value), and the
pending-request slot and worker flag are cleared, returning the bridge to
Idle. -/
theorem deferredReply_roundTrip (b : LocalBridge) (M : HalMessage) (s : String)
    (r : RemoteHALMessage) (h1 : b.hal_message = none) (h2 : b.worker = none) :
    (processMessage b M (.nonWire s)).assertFailed = false ∧
    (processMessage b M (.nonWire s)).message.refCount = M.refCount + 1 ∧
    (processMessage b M (.nonWire s)).bridge.hal_message = some M.incRefCount ∧
    (processMessage b M (.nonWire s)).bridge.worker = some true ∧
    remoteMessage (processMessage b M (.nonWire s)).bridge (.wire r) =
      .ok { bridge := { b with hal_message := none, worker := none },
            resolved := some ((copyResponses b.module_name r M.incRefCount).decRefCount),
            sentToHal := [] } ∧
    ((copyResponses b.module_name r M.incRefCount).decRefCount).refCount = M.refCount ∧
    ((copyResponses b.module_name r M.incRefCount).decRefCount).responses =
      M.responses ++ r.responses.map (fun e => { e with source := b.module_name }) ∧
    ((copyResponses b.module_name r M.incRefCount).decRefCount).errors =
      M.errors ++ r.m_errors.map (fun e => { e with source := b.module_name }) := by
  refine ⟨?_, ?_, ?_, ?_, ?_, ?_, ?_, ?_⟩ <;>
    simp [processMessage, remoteMessage, h2, copyResponses_eq,
          HalMessage.incRefCount, HalMessage.decRefCount]

/-- Witness for C1 at concrete inputs. -/
theorem deferredReply_roundTrip_witness :
    (processMessage idleBridge sampleMsg (.nonWire "wait")).assertFailed = false ∧
    (processMessage idleBridge sampleMsg (.nonWire "wait")).message.refCount =
      sampleMsg.refCount + 1 ∧
    (processMessage idleBridge sampleMsg (.nonWire "wait")).bridge.hal_message =
      some sampleMsg.incRefCount ∧
    (processMessage idleBridge sampleMsg (.nonWire "wait")).bridge.worker = some true ∧
    remoteMessage (processMessage idleBridge sampleMsg (.nonWire "wait")).bridge
        (.wire sampleReply) =
      .ok { bridge := { idleBridge with hal_message := none, worker := none },
            resolved := some ((copyResponses idleBridge.module_name sampleReply
              sampleMsg.incRefCount).decRefCount),
            sentToHal := [] } ∧
    ((copyResponses idleBridge.module_name sampleReply
        sampleMsg.incRefCount).decRefCount).refCount = sampleMsg.refCount ∧
    ((copyResponses idleBridge.module_name sampleReply
        sampleMsg.incRefCount).decRefCount).responses =
      sampleMsg.responses ++ sampleReply.responses.map
        (fun e => { e with source := idleBridge.module_name }) ∧
    ((copyResponses idleBridge.module_name sampleReply
        sampleMsg.incRefCount).decRefCount).errors =
      sampleMsg.errors ++ sampleReply.m_errors.map
        (fun e => { e with source := idleBridge.module_name }) :=
  deferredReply_roundTrip idleBridge sampleMsg "wait" sampleReply rfl rfl

/-- C3 counterexample: with a request already pending (`busyBridge` has a
pending message and an active worker), submitting a second message whose
synchronous reply happens to be a wire message completes with no assertion
failure at all, and the second message IS sent over the wire — contradicting
both "fails loudly via an assertion" and "not dispatched to the remote
side". -/
theorem second_submit_dispatched_without_assert :
    (processMessage busyBridge secondMsg (.wire sampleReply)).assertFailed = false ∧
    (processMessage busyBridge secondMsg (.wire sampleReply)).sent =
      [RemoteHALMessage.fromHal secondMsg] :=
  ⟨rfl, rfl⟩

/-- C3 amended: submitting a second host message while one is pending is
always dispatched over the wire.  If the remote replies synchronously it
completes with no assertion; only if the reply is deferred does the
`assert (self.worker is None)` fail, and then only after the wire send,
after incrementing the new message's reference count, and after overwriting
the pending-request slot with the new message. -/
theorem second_submit_behavior (b : LocalBridge) (M : HalMessage) (s : String)
    (r : RemoteHALMessage) (h : b.worker.isSome = true) :
    (processMessage b M (.wire r)).assertFailed = false ∧
    (processMessage b M (.wire r)).sent = [RemoteHALMessage.fromHal M] ∧
    (processMessage b M (.nonWire s)).assertFailed = true ∧
    (processMessage b M (.nonWire s)).sent = [RemoteHALMessage.fromHal M] ∧
    (processMessage b M (.nonWire s)).bridge.hal_message = some M.incRefCount ∧
    (processMessage b M (.nonWire s)).message.refCount = M.refCount + 1 := by
  refine ⟨?_, ?_, ?_, ?_, ?_, ?_⟩ <;>
    simp [processMessage, h, HalMessage.incRefCount]

/-- Witness for C3 (amended) at concrete inputs. -/
theorem second_submit_behavior_witness :
    (processMessage busyBridge secondMsg (.wire sampleReply)).assertFailed = false ∧
    (processMessage busyBridge secondMsg (.wire sampleReply)).sent =
      [RemoteHALMessage.fromHal secondMsg] ∧
    (processMessage busyBridge secondMsg (.nonWire "wait")).assertFailed = true ∧
    (processMessage busyBridge secondMsg (.nonWire "wait")).sent =
      [RemoteHALMessage.fromHal secondMsg] ∧
    (processMessage busyBridge secondMsg (.nonWire "wait")).bridge.hal_message =
      some secondMsg.incRefCount ∧
    (processMessage busyBridge secondMsg (.nonWire "wait")).message.refCount =
      secondMsg.refCount + 1 :=
  second_submit_behavior busyBridge secondMsg "wait" sampleReply rfl

/-- C5: with no message held, `holdMessage` stores the wire message and
emits the literal `"wait"` on the synchronous-reply signal; a subsequent
`releaseMessageHold` (on whatever completed message `r'` is then held)
emits the held message on the `sendMessage` (notify-path) signal, not the
reply signal, and clears the held slot. -/
theorem hold_release_cycle (s : ServerModule) (r r' : RemoteHALMessage)
    (h : s.r_message = none) :
    holdMessage s r = some ({ r_message := some r },
                            [.response (.strMsg "wait")]) ∧
    releaseMessageHold { r_message := some r' } =
      ({ r_message := none }, [.message (.wireMsg r')]) := by
  constructor
  · simp [holdMessage, h]
  · rfl

/-- Witness for C5 at concrete inputs. -/
theorem hold_release_cycle_witness :
    holdMessage { r_message := none } sampleReply =
      some ({ r_message := some sampleReply }, [.response (.strMsg "wait")]) ∧
    releaseMessageHold { r_message := some sampleReply } =
      ({ r_message := none }, [.message (.wireMsg sampleReply)]) :=
  hold_release_cycle { r_message := none } sampleReply sampleReply rfl

/-- C6 counterexample: for a host message answered synchronously (reply is
a completed wire message), the reference count is NOT decremented — it is
left unchanged (5, not 4) — contradicting "decrements the host message's
reference count". -/
theorem sync_reply_refcount_not_decremented :
    (processMessage idleBridge sampleMsg (.wire sampleReply)).message.refCount = 5 ∧
    ¬ (processMessage idleBridge sampleMsg (.wire sampleReply)).message.refCount =
        sampleMsg.refCount - 1 := by
  constructor
  · rfl
  · decide

/-- C6 amended: for every host message answered synchronously, the local
bridge copies the reply's responses and errors into the host message
(rewriting each entry's source), leaves the reference count unchanged, and
stays Idle (the bridge state is untouched), all within the same submit
call. -/
theorem sync_reply_behavior (b : LocalBridge) (M : HalMessage) (r : RemoteHALMessage) :
    (processMessage b M (.wire r)).bridge = b ∧
    (processMessage b M (.wire r)).assertFailed = false ∧
    (processMessage b M (.wire r)).sent = [RemoteHALMessage.fromHal M] ∧
    (processMessage b M (.wire r)).message.refCount = M.refCount ∧
    (processMessage b M (.wire r)).message.responses =
      M.responses ++ r.responses.map (fun e => { e with source := b.module_name }) ∧
    (processMessage b M (.wire r)).message.errors =
      M.errors ++ r.m_errors.map (fun e => { e with source := b.module_name }) := by
  refine ⟨?_, ?_, ?_, ?_, ?_, ?_⟩ <;>
    simp [processMessage, copyResponses_eq]

/-- C7 counterexample: calling `releaseMessageHold` with nothing held does
NOT fail fast — it completes normally, emitting Python `None` on the
notify-path signal — contradicting "release without a prior hold likewise
fails fast". -/
theorem release_without_hold_completes :
    releaseMessageHold { r_message := none } =
      ({ r_message := none }, [.message .pyNone]) :=
  rfl

/-- C7 amended: calling hold while a message is already held raises an
assertion error before storing or emitting anything; but calling release
without a prior hold does not fail fast — it completes normally, emitting
Python `None` on the notify path and leaving the held slot empty. -/
theorem hold_release_violations (s : ServerModule) (m r : RemoteHALMessage)
    (h : s.r_message = some m) :
    holdMessage s r = none ∧
    releaseMessageHold { r_message := none } =
      ({ r_message := none }, [.message .pyNone]) := by
  constructor
  · simp [holdMessage, h]
  · rfl

/-- Witness for C7 (amended) at concrete inputs. -/
theorem hold_release_violations_witness :
    holdMessage { r_message := some sampleReply } sampleReply = none ∧
    releaseMessageHold { r_message := none } =
      ({ r_message := none }, [.message .pyNone]) :=
  hold_release_violations { r_message := some sampleReply } sampleReply sampleReply rfl

/-- C10: a wire message arriving on the notify path while no request is
pending (`self.hal_message is None`) makes `remoteMessage` raise
(`AttributeError` on `None`) instead of completing. -/
theorem notify_without_pending_raises (b : LocalBridge) (r : RemoteHALMessage)
    (h : b.hal_message = none) :
    remoteMessage b (.wire r) = .error "AttributeError: NoneType" := by
  simp [remoteMessage, h]

/-- Witness for C10 at concrete inputs. -/
theorem notify_without_pending_raises_witness :
    remoteMessage idleBridge (.wire sampleReply) =
      .error "AttributeError: NoneType" :=
  notify_without_pending_raises idleBridge sampleReply rfl

/-- C2 counterexample: on data holding a `QObject` inside a sequence and a
non-`QObject` unserializable leaf, `sanitizeData` is the identity: the
output still contains unsanitizable leaves, contradicting "each
unsanitizable leaf, at any nesting depth including inside nested mappings
and sequences, is silently absent from the wire data". -/
theorem sanitize_keeps_nested_qobject :
    sanitizeData badData = badData ∧
    hasBadLeafEntries (sanitizeData badData) = true := by
  constructor
  · simp [badData, sanitizeData, PyVal.isQObject]
  · simp [badData, sanitizeData, PyVal.isQObject, hasBadLeafEntries,
          PyVal.hasBadLeaf]

/-- C2 amended: constructing the wire message never raises, and
sanitization strips exactly the `QObject`-valued entries of the data dict,
recursing into nested mappings only: the output has no `QObject` at any
dict-reachable position, and data with no `QObject` at a dict-reachable
position (even with `QObject`s inside sequences, or other non-serializable
leaves) passes through unchanged. -/
theorem sanitize_drops_only_dict_qobjects (d : List (String × PyVal)) :
    hasDroppable (sanitizeData d) = false ∧
    (hasDroppable d = false → sanitizeData d = d) :=
  ⟨hasDroppable_sanitizeData d, sanitizeData_of_not_droppable d⟩

/-- Witness for C2 (amended) at a concrete input. -/
theorem sanitize_drops_only_dict_qobjects_witness :
    hasDroppable (sanitizeData safeData) = false ∧
    sanitizeData safeData = safeData :=
  ⟨(sanitize_drops_only_dict_qobjects safeData).1,
   (sanitize_drops_only_dict_qobjects safeData).2 (by
     simp [safeData, hasDroppable, PyVal.isQObject])⟩

/-- C4: evaluated at the failing input.  For a wire message whose handler
raises, `newMessage` catches the exception, appends an error entry with the
exception message and stack trace, and emits the message as the failed
synchronous reply (first conjunct, as the claim says).  But for a non-wire
message (e.g. a `['newFrame', ...]` list) whose `processMessageOther`
handler raises, the `except` block's own `r_message.addError` call raises
`AttributeError`, so the exception escapes `newMessage` and no reply is
sent (second conjunct), contradicting "a handler exception never propagates
out of the dispatch". -/
theorem handler_exception_paths :
    newMessage (fun _ => .raises "boom" "Traceback (most recent call last)")
        (fun _ => .raises "boom" "Traceback (most recent call last)")
        (.wire sampleReply) =
      .ok [.response (.wireMsg (sampleReply.addError
        { source := "na", message := "boom",
          stack_trace := "Traceback (most recent call last)" }))] ∧
    newMessage (fun _ => .raises "boom" "Traceback (most recent call last)")
        (fun _ => .raises "boom" "Traceback (most recent call last)")
        (.listMsg "newFrame") =
      .error "AttributeError: object has no attribute addError" :=
  ⟨rfl, rfl⟩

/-- C8 counterexample: with two messages queued on the remote server's
inbound socket, one poll tick of `RemoteHardwareServer.
handleCheckMessageTimer` processes only the first and leaves the second
queued — the server does NOT drain all immediately-available messages per
tick. -/
theorem server_tick_leaves_message_queued :
    (serverHandleCheckMessageTimer echoWire ignoreOther
        [.strMsg "ping", .strMsg "pong"]).remaining = [.strMsg "pong"] ∧
    ([ServerInbound.strMsg "pong"] : List ServerInbound) ≠ [] := by
  constructor
  · rfl
  · simp

/-- C8 amended: the local bridge's tick drains every queued inbound message
in arrival order before processing; the remote server's tick receives at
most one message per tick — the head of its inbound queue — leaving the
rest queued. -/
theorem tick_drain_behavior (b : LocalBridge) (inbound : List NotifyMsg)
    (actWire : RemoteHALMessage → HandlerAct)
    (actOther : ServerInbound → HandlerAct) (sin : List ServerInbound) :
    (localHandleCheckMessageTimer b inbound).received = inbound ∧
    (localHandleCheckMessageTimer b inbound).remaining = [] ∧
    (serverHandleCheckMessageTimer actWire actOther sin).remaining = sin.tail ∧
    (serverHandleCheckMessageTimer actWire actOther sin).processed = sin.head? :=
  ⟨localReceiveLoop_eq inbound, rfl,
   serverTick_remaining actWire actOther sin,
   serverTick_processed actWire actOther sin⟩

/-- C9: the local bridge classifies purely by runtime type.  Any non-wire
synchronous reply — whatever its payload, not only `"wait"` — produces the
identical deferred-pending outcome; and a wire message on the notify path
is applied to whatever host message is pending, with an outcome completely
independent of the reply's id (changing the id gives the same result, and
the resolved message is determined by the pending message and the reply's
responses/errors alone, with no id comparison). -/
theorem classification_by_type_only (b : LocalBridge) (M pending : HalMessage)
    (s₁ s₂ : String) (r : RemoteHALMessage) (j : Nat)
    (h : b.hal_message = some pending) :
    processMessage b M (.nonWire s₁) = processMessage b M (.nonWire s₂) ∧
    (processMessage b M (.nonWire s₁)).bridge.hal_message = some M.incRefCount ∧
    remoteMessage b (.wire r) = remoteMessage b (.wire { r with m_id := j }) ∧
    remoteMessage b (.wire r) =
      .ok { bridge := { b with hal_message := none, worker := none },
            resolved := some ((copyResponses b.module_name r pending).decRefCount),
            sentToHal := [] } := by
  refine ⟨rfl, ?_, ?_, ?_⟩
  · by_cases hw : b.worker.isSome <;> simp [processMessage, hw]
  · simp [remoteMessage, h, copyResponses, RemoteHALMessage.getResponses,
          RemoteHALMessage.getErrors]
  · simp [remoteMessage, h]

/-- Witness for C9 at concrete inputs (pending id 7, reply id 7 changed to
99). -/
theorem classification_by_type_only_witness :
    processMessage busyBridge secondMsg (.nonWire "anything") =
      processMessage busyBridge secondMsg (.nonWire "wait") ∧
    (processMessage busyBridge secondMsg (.nonWire "anything")).bridge.hal_message =
      some secondMsg.incRefCount ∧
    remoteMessage busyBridge (.wire sampleReply) =
      remoteMessage busyBridge (.wire { sampleReply with m_id := 99 }) ∧
    remoteMessage busyBridge (.wire sampleReply) =
      .ok { bridge := { busyBridge with hal_message := none, worker := none },
            resolved := some ((copyResponses busyBridge.module_name sampleReply
              sampleMsg).decRefCount),
            sentToHal := [] } :=
  classification_by_type_only busyBridge secondMsg sampleMsg "anything" "wait"
    sampleReply 99 rfl

end RemoteHardware
